import Mathlib

/-!
Verification of the authentication endpoints of xors-api
(src/xors-api/src/api/jwt.rs): JWT claims, captcha challenge flow,
signup, signin and token refresh. The handlers' external collaborators
(`crate::db_utils`, `crate::utils`, `crate::errors`) are not part of the
sources; where their behaviour decides a property they are modelled from
the specification and marked as such. Timestamps (`i64` seconds from
`chrono::Utc::now().timestamp()`) are modelled as `Int`; `Uuid` as `Nat`.
-/

namespace Xors

/-- Modelled from the spec: the error taxonomy of `crate::errors::ApiError`
(`errors.rs` is not among the sources); one constructor per kind of the
spec's error table. -/
inductive ApiError where
  | ChallengeNotFound
  | ChallengeAnswerMismatch
  | InvalidSigninCredentials
  | UsernameTaken
  | InvalidToken
  | Unauthorized
  | ExpiredToken
  | NotRefreshToken
  | UnActiveRefreshToken
  | UserNotFound
  | InternalServer
  deriving DecidableEq, Repr

/-- `JwtClaims` (src/xors-api/src/api/jwt.rs, lines 31-40): the user's uuid,
the optional refresh-token activation date `active_after`, and the
expiration date `exp`. -/
structure JwtClaims where
  uuid : Nat
  active_after : Option Int
  exp : Int
  deriving DecidableEq, Repr

namespace JwtClaims

/-- `JwtClaims::is_refresh_token` (line 44): `self.active_after.is_some()`. -/
def is_refresh_token (c : JwtClaims) : Bool :=
  c.active_after.isSome

/-- `JwtClaims::is_expired` (line 49):
`self.exp < chrono::Utc::now().timestamp()`; the current time is an
explicit argument. -/
def is_expired (c : JwtClaims) (now : Int) : Bool :=
  c.exp < now

end JwtClaims

/-- Modelled from the spec: the stored Identity Record (owned by the external
storage collaborator, not among the sources): stable subject handle and
one-way password hash. -/
structure UserModel where
  uuid : Nat
  password_hash : String
  deriving DecidableEq, Repr

/-- The Token Pair minted by the Session Issuer: one access claims value and
one refresh claims value. -/
structure TokenPair where
  access : JwtClaims
  refresh : JwtClaims
  deriving DecidableEq, Repr

/-- Modelled from the spec: the Session Issuer `db_utils::signin_user`
(`db_utils.rs` is not among the sources). It computes `now`, builds access
claims with `expiration = now + access_ttl` and no activation field, and
refresh claims with `refresh_activation = now + access_ttl` and
`expiration = now + refresh_ttl`; the two TTLs are configuration values not
among the sources and are taken as parameters. -/
def signin_user (uuid : Nat) (now access_ttl refresh_ttl : Int) : TokenPair :=
  { access := ⟨uuid, none, now + access_ttl⟩
    refresh := ⟨uuid, some (now + access_ttl), now + refresh_ttl⟩ }

/-- Modelled from the spec: a signed token of the Token Codec. It carries the
claims and the key it was signed with; forging is out of scope, so the key
field stands for the signature. -/
structure SignedToken where
  claims : JwtClaims
  key : String
  deriving DecidableEq, Repr

/-- Modelled from the spec: `encode` of the Token Codec signs the claims with
the process-wide secret key. -/
def encode (key : String) (c : JwtClaims) : SignedToken :=
  ⟨c, key⟩

/-- Modelled from the spec: `decode` of the Token Codec verifies the
signature and fails with `InvalidToken` on mismatch; it does not itself
check expiration. -/
def decode (key : String) (t : SignedToken) : Except ApiError JwtClaims :=
  if t.key = key then .ok t.claims else .error .InvalidToken

/-- The `signin` handler (src/xors-api/src/api/jwt.rs, lines 155-175), with
its external collaborators as arguments: the two validators from
`crate::utils`, the identity lookup `db_utils::get_user_by_username`
(returning `Result`), `bcrypt::verify` (which may itself fail, hence
`Except String Bool`), and the Session Issuer applied to the found user.
`unwrap_or_default()` on the bcrypt result becomes
`Except.toOption _ |>.getD false`; the source's `if let Ok(user)` discards
any lookup error, falling through to `InvalidSigninCredentials`. -/
def signin (validate_password validate_user_signin : String → Except ApiError Unit)
    (get_user_by_username : String → Except ApiError UserModel)
    (bcrypt_verify : String → String → Except String Bool)
    (signin_user_fn : UserModel → TokenPair)
    (username password : String) : Except ApiError TokenPair :=
  match validate_password password with
  | .error e => .error e
  | .ok _ =>
    match validate_user_signin username with
    | .error e => .error e
    | .ok _ =>
      match get_user_by_username username with
      | .ok user =>
        if (bcrypt_verify password user.password_hash).toOption.getD false then
          .ok (signin_user_fn user)
        else
          .error .InvalidSigninCredentials
      | .error _ => .error .InvalidSigninCredentials

/-- The `refresh` handler (src/xors-api/src/api/jwt.rs, lines 195-223),
taking the claims admitted by the `JwtAuth` middleware, the current time,
the identity lookup by subject `db_utils::get_user` (whose error the
source's `?` propagates), and the Session Issuer applied to the found
user. The source matches on `active_after` first, then `is_expired`, then
`active_after < now`. -/
def refresh (claims : JwtClaims) (now : Int)
    (get_user : Nat → Except ApiError UserModel)
    (signin_user_fn : UserModel → TokenPair) : Except ApiError TokenPair :=
  match claims.active_after with
  | some active_after =>
    if ¬ claims.is_expired now then
      if active_after < now then
        match get_user claims.uuid with
        | .ok user => .ok (signin_user_fn user)
        | .error e => .error e
      else
        .error .UnActiveRefreshToken
    else
      .error .ExpiredToken
  | none => .error .NotRefreshToken

/-- Modelled from the spec: one stored Challenge Record (the captcha state
kept by the storage collaborator): correlation id, expected answer,
expiry. -/
structure CaptchaModel where
  uuid : Nat
  answer : String
  expired_at : Int
  deriving DecidableEq, Repr

/-- Lookup of a Challenge Record by correlation id in the captcha store. -/
def get_challenge (db : List CaptchaModel) (id : Nat) : Option CaptchaModel :=
  db.find? (fun c => c.uuid == id)

/-- Modelled from the spec: `crate::utils::check_captcha_answer` (`utils.rs`
is not among the sources). It fetches the Challenge Record by correlation
id; fails `ChallengeNotFound` if absent or past expiry; fails
`ChallengeAnswerMismatch` on a wrong answer, leaving the record intact; on
a correct answer the record is consumed (single-use-on-success policy).
Returns the outcome together with the resulting store. -/
def check_captcha_answer (db : List CaptchaModel) (now : Int) (token : Nat)
    (answer : String) : Except ApiError Unit × List CaptchaModel :=
  match get_challenge db token with
  | none => (.error .ChallengeNotFound, db)
  | some c =>
    if c.expired_at < now then
      (.error .ChallengeNotFound, db)
    else if answer = c.answer then
      (.ok (), db.filter (fun r => r.uuid != token))
    else
      (.error .ChallengeAnswerMismatch, db)

/-- The `signup` handler (src/xors-api/src/api/jwt.rs, lines 115-134): the
captcha check runs first (`check_captcha_answer(..).await?`), then the
registration validation (`validate_user_registration(..)?`), then user
creation and token issuance. The three collaborators' outcomes are
arguments; the handler contributes their sequencing. The user store is
threaded so record creation is observable. -/
def signup (check_captcha : Except ApiError Unit)
    (validate_user_registration : Except ApiError Unit)
    (create_user : List UserModel → Except ApiError (UserModel × List UserModel))
    (signin_user_fn : UserModel → TokenPair)
    (users : List UserModel) : Except ApiError TokenPair × List UserModel :=
  match check_captcha with
  | .error e => (.error e, users)
  | .ok _ =>
    match validate_user_registration with
    | .error e => (.error e, users)
    | .ok _ =>
      match create_user users with
      | .error e => (.error e, users)
      | .ok (u, users2) => (.ok (signin_user_fn u), users2)

/-- Claim C1, counterexample: a token inspected at the exact instant equal to
its expiration is reported NOT expired by the code (`exp < now` is strict),
contrary to the claim. -/
theorem C1_counterexample :
    JwtClaims.is_expired ⟨0, none, 100⟩ 100 = false := by
  decide

/-- Claim C1 (amended): `is_expired()` reports false for every token
inspected at or before its expiration timestamp — including the exact
instant equal to it — and true strictly after it. -/
theorem C1_expiry_boundary (c : JwtClaims) (now : Int) :
    (now ≤ c.exp → c.is_expired now = false) ∧
      (c.exp < now → c.is_expired now = true) := by
  constructor <;> intro h <;> simp [JwtClaims.is_expired] <;> omega

/-- Witness for C1: the boundary theorem applied at expiration 100, times
100 and 101. -/
theorem C1_expiry_boundary_witness :
    JwtClaims.is_expired ⟨0, none, 100⟩ 100 = false ∧
      JwtClaims.is_expired ⟨0, none, 100⟩ 101 = true :=
  ⟨(C1_expiry_boundary ⟨0, none, 100⟩ 100).1 (by decide),
   (C1_expiry_boundary ⟨0, none, 100⟩ 101).2 (by decide)⟩

/-- Claim C2, counterexample: an expired access token (no `active_after`,
`exp = 0`, `now = 5`) presented to the refresh handler is rejected with
`NotRefreshToken`, not `ExpiredToken` as the claim states. -/
theorem C2_counterexample :
    refresh ⟨0, none, 0⟩ 5 (fun _ => .error .UserNotFound)
        (fun u => signin_user u.uuid 5 1 2) ≠ .error .ExpiredToken ∧
      refresh ⟨0, none, 0⟩ 5 (fun _ => .error .UserNotFound)
        (fun u => signin_user u.uuid 5 1 2) = .error .NotRefreshToken := by
  constructor
  · intro h
    simp [refresh] at h
  · rfl

/-- Claim C2 (amended): the refresh handler checks the presence of the
activation field BEFORE expiration: claims without `active_after` are
rejected `NotRefreshToken` regardless of expiration, and expiration is
checked only for refresh tokens, an expired refresh token being rejected
`ExpiredToken`. -/
theorem C2_refreshness_checked_first (claims : JwtClaims) (now : Int)
    (gu : Nat → Except ApiError UserModel) (sf : UserModel → TokenPair) :
    (claims.active_after = none →
      refresh claims now gu sf = .error .NotRefreshToken) ∧
    (∀ a, claims.active_after = some a → claims.is_expired now = true →
      refresh claims now gu sf = .error .ExpiredToken) := by
  constructor
  · intro h
    simp [refresh, h]
  · intro a ha hexp
    simp [refresh, ha, hexp]

/-- Witness for C2: the order theorem applied to a concrete expired access
token and a concrete expired refresh token. -/
theorem C2_refreshness_checked_first_witness :
    refresh ⟨1, none, 100⟩ 7 (fun _ => .error .UserNotFound)
        (fun u => signin_user u.uuid 7 1 2) = .error .NotRefreshToken ∧
      refresh ⟨1, some 3, 4⟩ 9 (fun _ => .error .UserNotFound)
        (fun u => signin_user u.uuid 9 1 2) = .error .ExpiredToken :=
  ⟨(C2_refreshness_checked_first ⟨1, none, 100⟩ 7 _ _).1 rfl,
   (C2_refreshness_checked_first ⟨1, some 3, 4⟩ 9 _ _).2 3 rfl (by decide)⟩

/-- Claim C3, counterexample: an unexpired refresh token whose activation
timestamp equals the current time (`active_after = now = 100`) is rejected
with `UnActiveRefreshToken` even though `refresh_activation > now` is
false, contrary to the claim that the handler then proceeds to the
identity lookup. -/
theorem C3_counterexample :
    refresh ⟨2, some 100, 200⟩ 100 (fun _ => .ok ⟨2, "h"⟩)
        (fun u => signin_user u.uuid 100 1 2) = .error .UnActiveRefreshToken ∧
      ¬ ((100 : Int) > 100) := by
  exact ⟨rfl, by decide⟩

/-- Claim C3 (amended): for an unexpired refresh token, the handler rejects
with `UnActiveRefreshToken` whenever `refresh_activation ≥ now` (the
source proceeds only on the strict `active_after < now`), and when
`refresh_activation < now` the outcome is that of the identity lookup. -/
theorem C3_activation_boundary (c : JwtClaims) (now a : Int)
    (gu : Nat → Except ApiError UserModel) (sf : UserModel → TokenPair)
    (ha : c.active_after = some a) (hexp : c.is_expired now = false) :
    (now ≤ a → refresh c now gu sf = .error .UnActiveRefreshToken) ∧
      (a < now → refresh c now gu sf =
        match gu c.uuid with
        | .ok u => .ok (sf u)
        | .error e => .error e) := by
  constructor
  · intro h
    have hlt : ¬ (a < now) := by omega
    simp [refresh, ha, hexp, hlt]
  · intro h
    simp [refresh, ha, hexp, h]

/-- Witness for C3: the boundary theorem applied to a concrete token at
activation 100, at times 100 (rejected) and 101 (identity lookup). -/
theorem C3_activation_boundary_witness :
    refresh ⟨2, some 100, 200⟩ 100 (fun _ => .ok ⟨2, "h"⟩)
        (fun u => signin_user u.uuid 100 1 2) = .error .UnActiveRefreshToken ∧
      refresh ⟨2, some 100, 200⟩ 101 (fun _ => .ok ⟨2, "h"⟩)
        (fun u => signin_user u.uuid 101 1 2)
        = .ok (signin_user 2 101 1 2) :=
  ⟨(C3_activation_boundary ⟨2, some 100, 200⟩ 100 100 _ _ rfl (by decide)).1
      (by decide),
   (C3_activation_boundary ⟨2, some 100, 200⟩ 101 100 _ _ rfl (by decide)).2
      (by decide)⟩

/-- Claim C4: a signin whose identity lookup fails (unknown username) and a
signin whose lookup succeeds but whose password does not verify produce
the very same error value `InvalidSigninCredentials`: the two failure
causes are observationally indistinguishable. -/
theorem C4_signin_nondistinguishing
    (vp vu : String → Except ApiError Unit)
    (gu : String → Except ApiError UserModel)
    (bv : String → String → Except String Bool)
    (sf : UserModel → TokenPair)
    (u1 p1 u2 p2 : String) (user : UserModel) (e : ApiError)
    (hvp1 : vp p1 = .ok ()) (hvu1 : vu u1 = .ok ())
    (hvp2 : vp p2 = .ok ()) (hvu2 : vu u2 = .ok ())
    (hlookup1 : gu u1 = .error e)
    (hlookup2 : gu u2 = .ok user)
    (hverify : bv p2 user.password_hash = .ok false) :
    signin vp vu gu bv sf u1 p1 = .error .InvalidSigninCredentials ∧
      signin vp vu gu bv sf u2 p2 = .error .InvalidSigninCredentials ∧
      signin vp vu gu bv sf u1 p1 = signin vp vu gu bv sf u2 p2 := by
  have h1 : signin vp vu gu bv sf u1 p1 = .error .InvalidSigninCredentials := by
    simp [signin, hvp1, hvu1, hlookup1]
  have h2 : signin vp vu gu bv sf u2 p2 = .error .InvalidSigninCredentials := by
    simp [signin, hvp2, hvu2, hlookup2, hverify, Except.toOption]
  exact ⟨h1, h2, h1.trans h2.symm⟩

/-- Witness for C4: unknown user "bob" versus known user "alice" with a
non-matching password, in a concrete store. -/
theorem C4_signin_nondistinguishing_witness :
    signin (fun _ => .ok ()) (fun _ => .ok ())
        (fun s => if s = "alice" then .ok ⟨1, "hash"⟩
          else .error .InvalidSigninCredentials)
        (fun _ _ => .ok false) (fun u => signin_user u.uuid 0 1 2)
        "bob" "pw" = .error .InvalidSigninCredentials ∧
      signin (fun _ => .ok ()) (fun _ => .ok ())
        (fun s => if s = "alice" then .ok ⟨1, "hash"⟩
          else .error .InvalidSigninCredentials)
        (fun _ _ => .ok false) (fun u => signin_user u.uuid 0 1 2)
        "alice" "badpw" = .error .InvalidSigninCredentials ∧
      signin (fun _ => .ok ()) (fun _ => .ok ())
        (fun s => if s = "alice" then .ok ⟨1, "hash"⟩
          else .error .InvalidSigninCredentials)
        (fun _ _ => .ok false) (fun u => signin_user u.uuid 0 1 2)
        "bob" "pw"
        = signin (fun _ => .ok ()) (fun _ => .ok ())
            (fun s => if s = "alice" then .ok ⟨1, "hash"⟩
              else .error .InvalidSigninCredentials)
            (fun _ _ => .ok false) (fun u => signin_user u.uuid 0 1 2)
            "alice" "badpw" :=
  C4_signin_nondistinguishing _ _ _ _ _ "bob" "pw" "alice" "badpw"
    ⟨1, "hash"⟩ .InvalidSigninCredentials rfl rfl rfl rfl rfl rfl rfl

/-- Claim C5: when the bcrypt verification primitive itself fails, the
failure collapses to a non-match (`unwrap_or_default`) and the signin
fails with `InvalidSigninCredentials`; the hashing-library error is never
propagated. -/
theorem C5_bcrypt_failure_collapses
    (vp vu : String → Except ApiError Unit)
    (gu : String → Except ApiError UserModel)
    (bv : String → String → Except String Bool)
    (sf : UserModel → TokenPair)
    (u p : String) (user : UserModel) (err : String)
    (hvp : vp p = .ok ()) (hvu : vu u = .ok ())
    (hlookup : gu u = .ok user)
    (hverify : bv p user.password_hash = .error err) :
    signin vp vu gu bv sf u p = .error .InvalidSigninCredentials := by
  simp [signin, hvp, hvu, hlookup, hverify, Except.toOption]

/-- Witness for C5: a bcrypt primitive that always fails with an error still
yields `InvalidSigninCredentials`. -/
theorem C5_bcrypt_failure_collapses_witness :
    signin (fun _ => .ok ()) (fun _ => .ok ()) (fun _ => .ok ⟨1, "hash"⟩)
        (fun _ _ => .error "bcrypt failure") (fun u => signin_user u.uuid 0 1 2)
        "alice" "pw" = .error .InvalidSigninCredentials :=
  C5_bcrypt_failure_collapses _ _ _ _ _ "alice" "pw" ⟨1, "hash"⟩
    "bcrypt failure" rfl rfl rfl rfl

/-- Claim C6, divergence: a storage failure (`InternalServer`) during
signin's identity lookup is discarded by the source's `if let Ok(user)`
and surfaces to the caller as `InvalidSigninCredentials`, not as the
generic internal error the spec requires. -/
theorem C6_storage_failure_swallowed :
    signin (fun _ => .ok ()) (fun _ => .ok ())
        (fun _ => .error .InternalServer) (fun _ _ => .ok true)
        (fun u => signin_user u.uuid 0 1 2) "alice" "pw"
      = .error .InvalidSigninCredentials ∧
      signin (fun _ => .ok ()) (fun _ => .ok ())
        (fun _ => .error .InternalServer) (fun _ _ => .ok true)
        (fun u => signin_user u.uuid 0 1 2) "alice" "pw"
      ≠ .error .InternalServer := by
  constructor
  · rfl
  · intro h
    simp [signin] at h

/-- Claim C7: decoding a freshly minted access token yields claims with
`is_refresh_token() = false`, and decoding the paired refresh token
yields `is_refresh_token() = true`; the flag is the presence of
`active_after` and nothing else. -/
theorem C7_pair_refresh_flags (key : String) (uuid : Nat)
    (now attl rttl : Int) :
    (decode key (encode key (signin_user uuid now attl rttl).access)).map
        JwtClaims.is_refresh_token = .ok false ∧
      (decode key (encode key (signin_user uuid now attl rttl).refresh)).map
        JwtClaims.is_refresh_token = .ok true := by
  constructor <;>
    simp [decode, encode, signin_user, JwtClaims.is_refresh_token, Except.map]

/-- Claim C8: in every minted pair, the refresh token's activation equals the
access token's expiration exactly (both `now + access_ttl`), the refresh
expiration is `now + refresh_ttl`, and with `refresh_ttl > access_ttl` the
refresh token outlives the access token. -/
theorem C8_staggering (uuid : Nat) (now attl rttl : Int) (h : attl < rttl) :
    (signin_user uuid now attl rttl).refresh.active_after
        = some ((signin_user uuid now attl rttl).access.exp) ∧
      (signin_user uuid now attl rttl).access.exp = now + attl ∧
      (signin_user uuid now attl rttl).refresh.exp = now + rttl ∧
      (signin_user uuid now attl rttl).access.exp
        < (signin_user uuid now attl rttl).refresh.exp := by
  refine ⟨rfl, rfl, rfl, ?_⟩
  simp only [signin_user]
  omega

/-- Witness for C8: the staggering theorem at uuid 0, now 100, TTLs 10 and
20. -/
theorem C8_staggering_witness :
    (signin_user 0 100 10 20).refresh.active_after
        = some ((signin_user 0 100 10 20).access.exp) ∧
      (signin_user 0 100 10 20).access.exp = 100 + 10 ∧
      (signin_user 0 100 10 20).refresh.exp = 100 + 20 ∧
      (signin_user 0 100 10 20).access.exp
        < (signin_user 0 100 10 20).refresh.exp :=
  C8_staggering 0 100 10 20 (by decide)

/-- Claim C9: a wrong captcha submission fails with
`ChallengeAnswerMismatch` and leaves the challenge store unchanged, so a
subsequent correct submission of the same correlation id within the
expiry window succeeds. -/
theorem C9_wrong_answer_keeps_record (db : List CaptchaModel) (now : Int)
    (id : Nat) (wrong : String) (c : CaptchaModel)
    (hfind : get_challenge db id = some c)
    (hwin : now ≤ c.expired_at)
    (hwrong : wrong ≠ c.answer) :
    check_captcha_answer db now id wrong
        = (.error .ChallengeAnswerMismatch, db) ∧
      (check_captcha_answer (check_captcha_answer db now id wrong).2 now id
          c.answer).1 = .ok () := by
  have hexp : ¬ (c.expired_at < now) := by omega
  have h1 : check_captcha_answer db now id wrong
      = (.error .ChallengeAnswerMismatch, db) := by
    simp [check_captcha_answer, hfind, hexp, hwrong]
  refine ⟨h1, ?_⟩
  rw [h1]
  simp [check_captcha_answer, hfind, hexp]

/-- Witness for C9: a concrete store with one unexpired record; the wrong
answer "xyz" then the right answer "abc". -/
theorem C9_wrong_answer_keeps_record_witness :
    check_captcha_answer [⟨7, "abc", 100⟩] 50 7 "xyz"
        = (.error .ChallengeAnswerMismatch, [⟨7, "abc", 100⟩]) ∧
      (check_captcha_answer
          (check_captcha_answer [⟨7, "abc", 100⟩] 50 7 "xyz").2 50 7
          "abc").1 = .ok () :=
  C9_wrong_answer_keeps_record [⟨7, "abc", 100⟩] 50 7 "xyz" ⟨7, "abc", 100⟩
    (by decide) (by decide) (by decide)

/-- Claim C10: when the captcha check fails, signup returns exactly that
captcha error — regardless of the registration-validation outcome — and
the user store is unchanged: no identity record is created. -/
theorem C10_captcha_checked_first (e : ApiError)
    (vr : Except ApiError Unit)
    (cu : List UserModel → Except ApiError (UserModel × List UserModel))
    (sf : UserModel → TokenPair) (users : List UserModel) :
    signup (.error e) vr cu sf users = (.error e, users) :=
  rfl

end Xors
